import Mathlib

/-!
Shallow embedding of `gui/manager/managergui.py` (the qudi Manager GUI).

The file models the pure decision logic of the GUI layer:
  * the config load/reload confirmation flow (`reloadConfig`, `getLoadFile`),
  * the module list widgets (`ModuleListItem`) with their button handlers and
    the periodic state poll (`checkModuleState`),
  * the module-list rebuild (`updateGUIModuleList` / `fillModuleList`),
  * the configuration tree projection (`fillTreeWidget` / `fillTreeItem`),
  * log-entry handling (`handleLogEntry`),
  * software-version lookup (`getSoftwareVersion`),
  * the IPython namespace synchronisation (`updateIPythonModuleList`).

External Qt widgets are modelled by the data they carry (label texts, child
node lists, emitted signal payloads); the external manager's module tree is
modelled as association lists keyed by category and module name.
-/

set_option autoImplicit false

namespace Qudi

/-- Answer to a yes/no `QMessageBox.question` dialog. -/
inductive Reply where
  | yes
  | no
  deriving DecidableEq

/-- `reply == QtWidgets.QMessageBox.Yes` in `reloadConfig` / `getLoadFile`. -/
def restartFlag : Reply → Bool
  | Reply.yes => true
  | Reply.no => false

/-- A `sigLoadConfig` emission carries `(config file path, restart flag)`. -/
abbrev SigLoadConfig := String × Bool

/-- `ManagerGui.reloadConfig`: ask the restart question, then emit
`sigLoadConfig(configFile, restart)` where `restart` records the answer.
The emission list is the sequence of `sigLoadConfig.emit` calls performed. -/
def reloadConfig (configFile : String) (reply : Reply) : List SigLoadConfig :=
  [(configFile, restartFlag reply)]

/-- `ManagerGui.getLoadFile`: obtain a filename from the file dialog (empty
string when the dialog is cancelled); if it is non-empty, ask the restart
question and emit `sigLoadConfig(filename, restart)`. -/
def getLoadFile (filename : String) (reply : Reply) : List SigLoadConfig :=
  if filename = "" then []
  else [(filename, restartFlag reply)]

/-- One entry handled by `ManagerGui.handleLogEntry`: a dict with at least a
`level` field and a message payload. -/
structure LogEntry where
  level : String
  message : String
  deriving DecidableEq

/-- The observable side effects of log handling: `logwidget.addEntry` appends
to `logEntries`; `errorDialog.show` appends to `errorPopups`. -/
structure LogState where
  logEntries : List LogEntry
  errorPopups : List LogEntry
  deriving DecidableEq

/-- `ManagerGui.handleLogEntry`: forward every entry to the log widget, and
additionally surface the error dialog when the level is error or critical. -/
def handleLogEntry (st : LogState) (entry : LogEntry) : LogState :=
  let st1 : LogState := { st with logEntries := st.logEntries ++ [entry] }
  if entry.level = "error" ∨ entry.level = "critical" then
    { st1 with errorPopups := st1.errorPopups ++ [entry] }
  else
    st1

/-- The second component of the pair returned by `getSoftwareVersion`: a
branch name string on success, the integer placeholder `-1` on failure. -/
inductive BranchVal where
  | branch (s : String)
  | placeholder
  deriving DecidableEq

/-- `ManagerGui.getSoftwareVersion`: the surrounding `try` is modelled by
taking the outcome of the external git lookup as an `Except` argument
(`.ok (revision, branch)` when the repository resolves, `.error msg` when any
exception is raised). The second result component is the console output
produced by the `print` call in the handler. -/
def getSoftwareVersion (repo : Except String (String × String)) :
    (String × BranchVal) × Option String :=
  match repo with
  | Except.ok (rev, branch) => ((rev, BranchVal.branch branch), none)
  | Except.error e =>
      (("unknown", BranchVal.placeholder),
       some ("Could not get git repo because: " ++ e))

/-- A `ModuleListItem` widget: category (`base`), module name, the load
button's label and the status label's text. The remaining widget state
(reload/deactivate/cleanup buttons) carries no data. -/
structure MLItem where
  base : String
  name : String
  loadButtonText : String
  statusText : String
  deriving DecidableEq

/-- `ModuleListItem.__init__(manager, basename, modulename)`: the load button
is labelled `Load <name>`. The status label's initial text comes from the
`ui_module_widget.ui` form (external); it is the empty string there, and in
particular is not the error sentinel. -/
def mkModuleListItem (base name : String) : MLItem :=
  { base := base
    name := name
    loadButtonText := "Load " ++ name
    statusText := "" }

/-- `ModuleListItem.loadButtonClicked`: emit `sigLoadThis(base, name)` and,
when the category is `gui`, relabel the load button to `Show <name>`. The
second component is the list of `(base, name)` payloads emitted. -/
def loadButtonClicked (item : MLItem) : MLItem × List (String × String) :=
  (if item.base = "gui" then
     { item with loadButtonText := "Show " ++ item.name }
   else item,
   [(item.base, item.name)])

/-- Outcome of calling `getState()` on a loaded module instance: either a
state string is returned, or the call raises. -/
inductive QueryResult where
  | ok (s : String)
  | throws
  deriving DecidableEq

/-- A loaded module instance as seen by this GUI: an object whose `getState`
method behaves as recorded. -/
structure PyModule where
  getState : QueryResult
  deriving DecidableEq

/-- `self._manager.tree['loaded']`: one name-keyed mapping of loaded module
instances per category. The manager always creates exactly the keys
`hardware`, `logic` and `gui` in this dict. -/
structure LoadedTree where
  hardware : List (String × PyModule)
  logic : List (String × PyModule)
  gui : List (String × PyModule)
  deriving DecidableEq

/-- `base in tree['loaded'] and name in tree['loaded'][base]`, followed by
the lookup `tree['loaded'][base][name]`: `none` when either key is absent. -/
def lookupLoaded (tree : LoadedTree) (base name : String) : Option PyModule :=
  if base = "hardware" then tree.hardware.lookup name
  else if base = "logic" then tree.logic.lookup name
  else if base = "gui" then tree.gui.lookup name
  else none

/-- The sticky error sentinel string of `ModuleListItem.checkModuleState`. -/
def errorSentinel : String := "exception, cannot get state"

/-- `ModuleListItem.checkModuleState`: when the status label already shows the
error sentinel, do nothing at all; otherwise resolve the backing module in
`tree['loaded']`, display `not loaded` when absent, and otherwise display the
result of `getState()`, falling back to the error sentinel when it raises.
Returns the updated item, whether `getState` was invoked, and the (read-only,
hence unchanged) loaded-module tree. -/
def checkModuleState (tree : LoadedTree) (item : MLItem) :
    MLItem × Bool × LoadedTree :=
  if item.statusText = errorSentinel then
    (item, false, tree)
  else
    match lookupLoaded tree item.base item.name with
    | none => ({ item with statusText := "not loaded" }, false, tree)
    | some m =>
        match m.getState with
        | QueryResult.ok s => ({ item with statusText := s }, true, tree)
        | QueryResult.throws =>
            ({ item with statusText := errorSentinel }, true, tree)

/-- The slice of `self._manager.tree` read by `fillModuleList`: the defined
module names per category (`tree['defined'][base]`, in mapping iteration
order) and the auto-start exclusion list `tree['global']['startup']`. -/
structure DefinedTree where
  definedGui : List String
  definedLogic : List String
  definedHardware : List String
  startup : List String
  deriving DecidableEq

/-- The widget containers touched by the module-list rebuild: `self.modlist`
and the three per-category layouts. -/
structure ModListState where
  modlist : List MLItem
  guilayout : List MLItem
  logiclayout : List MLItem
  hwlayout : List MLItem
  deriving DecidableEq

/-- `ManagerGui.fillModuleList(layout, base)`: for each defined module of the
category that is not in the startup exclusion list, create a
`ModuleListItem`, append it to `self.modlist` and add it to the layout.
Returns the updated `(layout, modlist)` pair. -/
def fillModuleList (defined startup : List String) (base : String)
    (layout modlist : List MLItem) : List MLItem × List MLItem :=
  defined.foldl
    (fun acc m =>
      if m ∈ startup then acc
      else
        let widget := mkModuleListItem base m
        (acc.1 ++ [widget], acc.2 ++ [widget]))
    (layout, modlist)

/-- `ManagerGui.updateGUIModuleList`: fill the gui, logic and hardware lists
in that order. The `clearModuleList` call in the source is commented out, so
nothing is cleared before filling. -/
def updateGUIModuleList (tree : DefinedTree) (st : ModListState) :
    ModListState :=
  let g := fillModuleList tree.definedGui tree.startup "gui"
    st.guilayout st.modlist
  let l := fillModuleList tree.definedLogic tree.startup "logic"
    st.logiclayout g.2
  let h := fillModuleList tree.definedHardware tree.startup "hardware"
    st.hwlayout l.2
  { modlist := h.2, guilayout := g.1, logiclayout := l.1, hwlayout := h.1 }

/-- Number of `ModuleListItem`s for a given `(category, name)` pair in a
widget container. -/
def countItem (base name : String) (l : List MLItem) : Nat :=
  (l.filter (fun w => w.base = base ∧ w.name = name)).length

/-- The state owned by the IPython namespace synchronisation: the tracked
module-name set `self.modules` and the kernel namespace
`self.namespace = kernel.shell.user_ns` (a name-keyed mapping; the values
that matter here are loaded module instances). -/
structure IPyState where
  modules : List String
  nameSpace : String → Option PyModule

/-- The names added to `currentModules` by the loop of
`updateIPythonModuleList`, over the bases hardware, logic, gui. -/
def currentModulesList (t : LoadedTree) : List String :=
  t.hardware.map Prod.fst ++ t.logic.map Prod.fst ++ t.gui.map Prod.fst

/-- The mapping built as `newNamespace` by the loop: assignments run in base
order hardware, logic, gui, so for a name in several categories the gui
binding wins, then logic, then hardware. -/
def newNamespaceLookup (t : LoadedTree) (k : String) : Option PyModule :=
  (t.gui.lookup k).orElse fun _ =>
    (t.logic.lookup k).orElse fun _ =>
      t.hardware.lookup k

/-- `ManagerGui.updateIPythonModuleList`: collect the loaded module names and
instances, compute `discard = self.modules - currentModules`, apply
`namespace.update(newNamespace)`, pop every discarded name, and store
`currentModules` as the new tracked set. -/
def updateIPythonModuleList (t : LoadedTree) (st : IPyState) : IPyState :=
  let current := currentModulesList t
  let discard := st.modules.filter fun m => ¬ m ∈ current
  let ns1 : String → Option PyModule := fun k =>
    match newNamespaceLookup t k with
    | some v => some v
    | none => st.nameSpace k
  let ns2 : String → Option PyModule := fun k =>
    if k ∈ discard then none else ns1 k
  { modules := current, nameSpace := ns2 }

/-- A Python value as the config tree projector dispatches on it: the exact
runtime types `dict`, `OrderedDict` and `list` are separate constructors;
`tuple`, `set`, strict subclasses of `dict` / `list`, and everything else
fall through to the scalar branch of `fillTreeItem`. -/
inductive PyVal where
  | pdict (entries : List (String × PyVal))
  | podict (entries : List (String × PyVal))
  | plist (elems : List PyVal)
  | tuple (elems : List PyVal)
  | pset (elems : List PyVal)
  | dictSub (entries : List (String × PyVal))
  | listSub (elems : List PyVal)
  | scalar (s : String)

mutual

/-- Python's `str()` on the modelled values (external builtin; scalars carry
their own string form). -/
def pyStr : PyVal → String
  | PyVal.scalar s => s
  | PyVal.pdict entries => "\x7b" ++ pyStrEntries entries ++ "\x7d"
  | PyVal.podict entries => "OrderedDict([" ++ pyStrEntries entries ++ "])"
  | PyVal.plist elems => "[" ++ pyStrElems elems ++ "]"
  | PyVal.tuple elems => "(" ++ pyStrElems elems ++ ")"
  | PyVal.pset elems => "\x7b" ++ pyStrElems elems ++ "\x7d"
  | PyVal.dictSub entries => "\x7b" ++ pyStrEntries entries ++ "\x7d"
  | PyVal.listSub elems => "[" ++ pyStrElems elems ++ "]"

def pyStrEntries : List (String × PyVal) → String
  | [] => ""
  | [(k, v)] => "'" ++ k ++ "': " ++ pyStr v
  | (k, v) :: rest => "'" ++ k ++ "': " ++ pyStr v ++ ", " ++ pyStrEntries rest

def pyStrElems : List PyVal → String
  | [] => ""
  | [v] => pyStr v
  | v :: rest => pyStr v ++ ", " ++ pyStrElems rest

end

/-- A `QTreeWidgetItem`: its column-0 label and its children, in insertion
order (`setExpanded` carries no data). -/
inductive TreeNode where
  | node (label : String) (children : List TreeNode)

mutual

/-- `ManagerGui.fillTreeItem(item, value)`: the children added to `item`.
Exact type `dict` / `OrderedDict`: one child per key, labelled with the key,
recursing into the value. Exact type `list`: one child per element via the
tagged list branch. Anything else: one leaf child labelled `str(value)`. -/
def fillTreeItem : PyVal → List TreeNode
  | PyVal.pdict entries => fillEntries entries
  | PyVal.podict entries => fillEntries entries
  | PyVal.plist elems => fillElems elems
  | v => [TreeNode.node (pyStr v) []]

def fillEntries : List (String × PyVal) → List TreeNode
  | [] => []
  | (k, v) :: rest => TreeNode.node k (fillTreeItem v) :: fillEntries rest

def fillElems : List PyVal → List TreeNode
  | [] => []
  | v :: rest => listChild v :: fillElems rest

/-- The body of the `list` branch of `fillTreeItem` for one element: tag
exact `dict` / `OrderedDict` / `list` children with `[dict]` / `[odict]` /
`[list]` and recurse; label every other element with `str(val)`. -/
def listChild : PyVal → TreeNode
  | PyVal.pdict entries => TreeNode.node "[dict]" (fillEntries entries)
  | PyVal.podict entries => TreeNode.node "[odict]" (fillEntries entries)
  | PyVal.plist elems => TreeNode.node "[list]" (fillElems elems)
  | v => TreeNode.node (pyStr v) []

end

/-- `ManagerGui.fillTreeWidget(widget, value)`: `widget.clear()` discards all
prior top-level items, then `fillTreeItem` repopulates from the value alone.
The argument is the widget's prior content. -/
def fillTreeWidget (_prior : List TreeNode) (value : PyVal) : List TreeNode :=
  fillTreeItem value

/-- The values on which `fillTreeItem` and the list branch recurse: exact
runtime type `dict`, `OrderedDict` or `list`. -/
def isProjectedContainer : PyVal → Bool
  | PyVal.pdict _ => true
  | PyVal.podict _ => true
  | PyVal.plist _ => true
  | _ => false

/-! Helper lemmas shared by the claim theorems. -/

theorem show_label_ne_load_label (n : String) :
    ("Show " ++ n) ≠ ("Load " ++ n) := by
  intro h
  have h2 : 'S' :: 'h' :: 'o' :: 'w' :: ' ' :: n.data
      = 'L' :: 'o' :: 'a' :: 'd' :: ' ' :: n.data := congrArg String.data h
  injection h2 with h3 _
  exact absurd h3 (by decide)

theorem lookup_isSome_iff_mem_keys (l : List (String × PyModule)) (k : String) :
    (l.lookup k).isSome ↔ k ∈ l.map Prod.fst := by
  induction l with
  | nil => simp [List.lookup]
  | cons p rest ih =>
    by_cases hk : k = p.1
    · simp [List.lookup, hk]
    · have hb : (k == p.1) = false := beq_eq_false_iff_ne.mpr hk
      simp [List.lookup, hb, ih, hk]

theorem newNamespaceLookup_isSome_iff (t : LoadedTree) (k : String) :
    (newNamespaceLookup t k).isSome ↔ k ∈ currentModulesList t := by
  unfold newNamespaceLookup currentModulesList
  cases hg : t.gui.lookup k with
  | some v =>
      have : k ∈ t.gui.map Prod.fst :=
        (lookup_isSome_iff_mem_keys t.gui k).mp (by simp [hg])
      simp [Option.orElse, this]
  | none =>
      have hg2 : ¬ k ∈ t.gui.map Prod.fst := by
        rw [← lookup_isSome_iff_mem_keys, hg]
        simp
      cases hl : t.logic.lookup k with
      | some v =>
          have : k ∈ t.logic.map Prod.fst :=
            (lookup_isSome_iff_mem_keys t.logic k).mp (by simp [hl])
          simp [Option.orElse, this]
      | none =>
          have hl2 : ¬ k ∈ t.logic.map Prod.fst := by
            rw [← lookup_isSome_iff_mem_keys, hl]
            simp
          simp [Option.orElse, lookup_isSome_iff_mem_keys, hg2, hl2]

theorem fillElems_eq_map (l : List PyVal) : fillElems l = l.map listChild := by
  induction l with
  | nil => rfl
  | cons v rest ih => simp [fillElems, ih]

/-! Claim theorems. -/

/-- Claim C1, counterexample: with the user answering No, `reloadConfig`
still emits `sigLoadConfig(configFile, False)`, and `getLoadFile` with a
chosen (non-empty) filename still emits `sigLoadConfig(filename, False)`;
neither emission list is empty, so declining does not abort the action. -/
theorem declining_still_emits_sigLoadConfig :
    reloadConfig "qudi.cfg" Reply.no = [("qudi.cfg", false)] ∧
    reloadConfig "qudi.cfg" Reply.no ≠ [] ∧
    getLoadFile "custom.cfg" Reply.no = [("custom.cfg", false)] ∧
    getLoadFile "custom.cfg" Reply.no ≠ [] := by
  refine ⟨rfl, by decide, ?_, ?_⟩ <;> simp [getLoadFile, restartFlag]

/-- Claim C1, amended: the yes/no confirmation does not gate the dispatch.
`reloadConfig` always emits exactly one `sigLoadConfig` request, and
`getLoadFile` emits exactly one whenever a non-empty filename was chosen;
the answer only determines the restart boolean carried with the request
(`false` when the user answers No). -/
theorem sigLoadConfig_emission_spec (file fname : String) (r : Reply)
    (h : fname ≠ "") :
    reloadConfig file r = [(file, restartFlag r)] ∧
    getLoadFile fname r = [(fname, restartFlag r)] ∧
    restartFlag Reply.no = false ∧ restartFlag Reply.yes = true := by
  refine ⟨rfl, ?_, rfl, rfl⟩
  simp [getLoadFile, h]

/-- Witness for the amended C1 theorem at a concrete input. -/
theorem sigLoadConfig_emission_spec_witness :
    reloadConfig "qudi.cfg" Reply.yes = [("qudi.cfg", true)] ∧
    getLoadFile "other.cfg" Reply.yes = [("other.cfg", true)] ∧
    restartFlag Reply.no = false ∧ restartFlag Reply.yes = true :=
  sigLoadConfig_emission_spec "qudi.cfg" "other.cfg" Reply.yes (by decide)

/-- Claim C2: the module-list rebuild is claimed idempotent with at most one
`ModuleListItem` per `(category, name)` pair; on the code, invoking
`updateGUIModuleList` twice over the same defined-module mapping (one gui
module `b`, empty exclusion set) leaves two items for `("gui", "b")` in
`self.modlist` and in the gui layout, while a single invocation from the
empty containers leaves exactly one. -/
theorem updateGUIModuleList_rebuild_duplicates :
    countItem "gui" "b"
      (updateGUIModuleList ⟨["b"], [], [], []⟩
        ⟨[], [], [], []⟩).modlist = 1 ∧
    countItem "gui" "b"
      (updateGUIModuleList ⟨["b"], [], [], []⟩
        (updateGUIModuleList ⟨["b"], [], [], []⟩ ⟨[], [], [], []⟩)).modlist
      = 2 ∧
    countItem "gui" "b"
      (updateGUIModuleList ⟨["b"], [], [], []⟩
        (updateGUIModuleList ⟨["b"], [], [], []⟩ ⟨[], [], [], []⟩)).guilayout
      = 2 := by
  refine ⟨rfl, rfl, rfl⟩

/-- Claim C5: clicking Load emits the load intent `(category, name)`; the
button label changes from `Load <name>` to `Show <name>` exactly when the
category is `gui`, and for any other category (`logic`, `hardware`) the item
is left unchanged. -/
theorem loadButtonClicked_relabel_iff_gui (base name : String) :
    loadButtonClicked (mkModuleListItem base name)
      = (if base = "gui" then
           { mkModuleListItem base name with
               loadButtonText := "Show " ++ name }
         else mkModuleListItem base name,
         [(base, name)]) ∧
    ((loadButtonClicked (mkModuleListItem base name)).1.loadButtonText
        = "Show " ++ name ↔ base = "gui") ∧
    (base ≠ "gui" →
      (loadButtonClicked (mkModuleListItem base name)).1
        = mkModuleListItem base name) := by
  by_cases hb : base = "gui"
  · simp [loadButtonClicked, mkModuleListItem, hb]
  · refine ⟨?_, ?_, fun _ => ?_⟩
    · simp [loadButtonClicked, mkModuleListItem, hb]
    · apply iff_of_false
      · intro hlabel
        have h2 : (loadButtonClicked (mkModuleListItem base name)).1.loadButtonText
            = "Load " ++ name := by
          simp [loadButtonClicked, mkModuleListItem, hb]
        rw [h2] at hlabel
        exact show_label_ne_load_label name hlabel.symm
      · exact hb
    · simp [loadButtonClicked, mkModuleListItem, hb]

/-- Witness for the C5 theorem at concrete items: a gui item is relabelled to
`Show <name>`, a logic item is unchanged, and the load intent is emitted. -/
theorem loadButtonClicked_relabel_iff_gui_witness :
    (loadButtonClicked (mkModuleListItem "gui" "cam")).1.loadButtonText
        = "Show cam" ∧
    (loadButtonClicked (mkModuleListItem "logic" "fit")).1
        = mkModuleListItem "logic" "fit" ∧
    (loadButtonClicked (mkModuleListItem "gui" "cam")).2 = [("gui", "cam")] := by
  refine ⟨?_, ?_, ?_⟩
  · exact (loadButtonClicked_relabel_iff_gui "gui" "cam").2.1.mpr rfl
  · exact (loadButtonClicked_relabel_iff_gui "logic" "fit").2.2 (by decide)
  · exact congrArg Prod.snd (loadButtonClicked_relabel_iff_gui "gui" "cam").1

/-- Claim C7: every handled log entry is appended to the visible log, and the
error popup is surfaced (appended to the popup sequence, never suppressed or
deduplicated) exactly when the entry's level is `error` or `critical`. -/
theorem handleLogEntry_popup_iff_error_or_critical
    (st : LogState) (e : LogEntry) :
    (handleLogEntry st e).logEntries = st.logEntries ++ [e] ∧
    (handleLogEntry st e).errorPopups
      = (if e.level = "error" ∨ e.level = "critical" then
           st.errorPopups ++ [e]
         else st.errorPopups) ∧
    ((handleLogEntry st e).errorPopups ≠ st.errorPopups
      ↔ (e.level = "error" ∨ e.level = "critical")) := by
  unfold handleLogEntry
  by_cases h : e.level = "error" ∨ e.level = "critical"
  · refine ⟨by simp [h], by simp [h], ?_⟩
    simp only [h, if_pos, iff_true]
    intro hcontra
    have := congrArg List.length hcontra
    simp at this
  · simp [h]

/-- Witness for the C7 theorem: an `error` entry is logged and opens the
popup; an `info` entry is logged and does not. -/
theorem handleLogEntry_popup_witness :
    (handleLogEntry ⟨[], []⟩ ⟨"error", "boom"⟩).logEntries
        = [⟨"error", "boom"⟩] ∧
    (handleLogEntry ⟨[], []⟩ ⟨"error", "boom"⟩).errorPopups
        = [⟨"error", "boom"⟩] ∧
    (handleLogEntry ⟨[], []⟩ ⟨"info", "hello"⟩).errorPopups = [] := by
  refine ⟨?_, ?_, ?_⟩
  · have h :=
      (handleLogEntry_popup_iff_error_or_critical ⟨[], []⟩ ⟨"error", "boom"⟩).1
    simpa using h
  · have h :=
      (handleLogEntry_popup_iff_error_or_critical ⟨[], []⟩ ⟨"error", "boom"⟩).2.1
    rw [if_pos (Or.inl rfl)] at h
    simpa using h
  · have h :=
      (handleLogEntry_popup_iff_error_or_critical ⟨[], []⟩ ⟨"info", "hello"⟩).2.1
    rw [if_neg (by decide)] at h
    simpa using h

/-- Claim C8: when the git lookup raises, `getSoftwareVersion` catches the
exception, prints a message, and returns the sentinel pair
`('unknown', -1)`; on success it returns the `(revision, branch)` string
pair and prints nothing. The function is total on every lookup outcome, so
no failure propagates. -/
theorem getSoftwareVersion_fallback (e rev branch : String) :
    getSoftwareVersion (Except.error e)
      = (("unknown", BranchVal.placeholder),
         some ("Could not get git repo because: " ++ e)) ∧
    getSoftwareVersion (Except.ok (rev, branch))
      = ((rev, BranchVal.branch branch), none) :=
  ⟨rfl, rfl⟩

/-- Claim C3: the error display is a sticky latch. A tick on an item whose
displayed state equals the error sentinel performs no state query, changes
nothing, and writes nothing; and once a state query throws, that tick sets
the displayed state to the error sentinel and any later tick (over any tree)
is again a complete no-op. -/
theorem checkModuleState_sticky_error_latch (tree tree2 : LoadedTree)
    (item : MLItem) (m : PyModule) :
    (item.statusText = errorSentinel →
      checkModuleState tree item = (item, false, tree)) ∧
    (item.statusText ≠ errorSentinel →
      lookupLoaded tree item.base item.name = some m →
      m.getState = QueryResult.throws →
      (checkModuleState tree item).1.statusText = errorSentinel ∧
      (checkModuleState tree item).2.1 = true ∧
      checkModuleState tree2 (checkModuleState tree item).1
        = ((checkModuleState tree item).1, false, tree2)) := by
  constructor
  · intro h
    simp [checkModuleState, h]
  · intro h hl hm
    simp [checkModuleState, h, hl, hm]

/-- Witness for the C3 theorem: a fresh gui item whose module's `getState`
throws is latched to the sentinel by one tick with a query performed, a
second tick is a no-op, and a tick on an already-latched item is a no-op. -/
theorem checkModuleState_sticky_error_latch_witness :
    ((checkModuleState ⟨[], [], [("cam", ⟨QueryResult.throws⟩)]⟩
        (mkModuleListItem "gui" "cam")).1.statusText = errorSentinel ∧
      (checkModuleState ⟨[], [], [("cam", ⟨QueryResult.throws⟩)]⟩
        (mkModuleListItem "gui" "cam")).2.1 = true ∧
      checkModuleState ⟨[], [], []⟩
          (checkModuleState ⟨[], [], [("cam", ⟨QueryResult.throws⟩)]⟩
            (mkModuleListItem "gui" "cam")).1
        = ((checkModuleState ⟨[], [], [("cam", ⟨QueryResult.throws⟩)]⟩
            (mkModuleListItem "gui" "cam")).1, false, ⟨[], [], []⟩)) ∧
    checkModuleState ⟨[], [], []⟩
        { mkModuleListItem "gui" "cam" with statusText := errorSentinel }
      = ({ mkModuleListItem "gui" "cam" with statusText := errorSentinel },
         false, ⟨[], [], []⟩) := by
  constructor
  · exact (checkModuleState_sticky_error_latch
      ⟨[], [], [("cam", ⟨QueryResult.throws⟩)]⟩ ⟨[], [], []⟩
      (mkModuleListItem "gui" "cam") ⟨QueryResult.throws⟩).2
      (by decide) rfl rfl
  · exact (checkModuleState_sticky_error_latch ⟨[], [], []⟩ ⟨[], [], []⟩
      { mkModuleListItem "gui" "cam" with statusText := errorSentinel }
      ⟨QueryResult.throws⟩).1 rfl

/-- Claim C4: a tick on an item that is not latched and whose
`(category, name)` pair is absent from the loaded-module tree sets the
displayed state to `not loaded`, performs no state query, and leaves the
external module tree unchanged. -/
theorem checkModuleState_absent_not_loaded (tree : LoadedTree) (item : MLItem)
    (h1 : item.statusText ≠ errorSentinel)
    (h2 : lookupLoaded tree item.base item.name = none) :
    checkModuleState tree item
      = ({ item with statusText := "not loaded" }, false, tree) := by
  simp [checkModuleState, h1, h2]

/-- Witness for the C4 theorem: a fresh logic item over an empty loaded
tree is displayed as `not loaded`. -/
theorem checkModuleState_absent_not_loaded_witness :
    checkModuleState ⟨[], [], []⟩ (mkModuleListItem "logic" "scope")
      = ({ mkModuleListItem "logic" "scope" with statusText := "not loaded" },
         false, ⟨[], [], []⟩) :=
  checkModuleState_absent_not_loaded ⟨[], [], []⟩
    (mkModuleListItem "logic" "scope") (by decide) rfl

/-- Claim C6: `fillTreeWidget` clears the widget first, so the projected
tree depends only on the configuration value: projecting over any two prior
contents yields the same tree, and projecting twice in a row yields two
structurally identical trees. -/
theorem fillTreeWidget_projection_idempotent
    (w w2 : List TreeNode) (v : PyVal) :
    fillTreeWidget w v = fillTreeWidget w2 v ∧
    fillTreeWidget (fillTreeWidget w v) v = fillTreeWidget w v :=
  ⟨rfl, rfl⟩

/-- Claim C9: `fillTreeItem` recurses only on exact `dict` / `OrderedDict` /
`list` values. Any other value (tuple, set, strict dict/list subclass,
scalar) produces exactly one leaf child labelled `str(value)`; inside a
list such an element becomes a single untagged leaf labelled `str(element)`;
and a list renders each element through the list branch. -/
theorem fillTreeItem_leaf_for_non_container (v : PyVal) (elems : List PyVal)
    (h : isProjectedContainer v = false) :
    fillTreeItem v = [TreeNode.node (pyStr v) []] ∧
    listChild v = TreeNode.node (pyStr v) [] ∧
    fillTreeItem (PyVal.plist elems) = elems.map listChild := by
  refine ⟨?_, ?_, ?_⟩
  · cases v <;> first
      | rfl
      | exact absurd h (by simp [isProjectedContainer])
  · cases v <;> first
      | rfl
      | exact absurd h (by simp [isProjectedContainer])
  · exact fillElems_eq_map elems

/-- Witness for the C9 theorem: a tuple, a set and a dict subclass are
rendered as single leaves, both top-level and as list elements. -/
theorem fillTreeItem_leaf_for_non_container_witness :
    isProjectedContainer (PyVal.tuple [PyVal.scalar "1", PyVal.scalar "2"])
        = false ∧
    fillTreeItem (PyVal.tuple [PyVal.scalar "1", PyVal.scalar "2"])
        = [TreeNode.node "(1, 2)" []] ∧
    fillTreeItem
        (PyVal.plist [PyVal.tuple [PyVal.scalar "1", PyVal.scalar "2"],
          PyVal.pset [PyVal.scalar "3"], PyVal.dictSub [("k", PyVal.scalar "4")]])
      = [TreeNode.node "(1, 2)" [], TreeNode.node "\x7b3\x7d" [],
         TreeNode.node "\x7b'k': 4\x7d" []] := by
  refine ⟨rfl, ?_, ?_⟩
  · exact (fillTreeItem_leaf_for_non_container
      (PyVal.tuple [PyVal.scalar "1", PyVal.scalar "2"]) [] rfl).1
  · have h := (fillTreeItem_leaf_for_non_container
      (PyVal.tuple [PyVal.scalar "1", PyVal.scalar "2"])
      [PyVal.tuple [PyVal.scalar "1", PyVal.scalar "2"],
        PyVal.pset [PyVal.scalar "3"],
        PyVal.dictSub [("k", PyVal.scalar "4")]] rfl).2.2
    rw [h]
    rfl

/-- Claim C10: after `updateIPythonModuleList`, the tracked set
`self.modules` is exactly the loaded module names over hardware, logic and
gui; a previously tracked name that is no longer loaded is removed from the
namespace; every currently loaded name is bound to its loaded instance; and
every other namespace entry is untouched. -/
theorem updateIPythonModuleList_sync (t : LoadedTree) (st : IPyState)
    (k : String) :
    (updateIPythonModuleList t st).modules = currentModulesList t ∧
    (k ∈ st.modules → ¬ k ∈ currentModulesList t →
      (updateIPythonModuleList t st).nameSpace k = none) ∧
    (k ∈ currentModulesList t →
      (updateIPythonModuleList t st).nameSpace k = newNamespaceLookup t k ∧
      (newNamespaceLookup t k).isSome) ∧
    (¬ k ∈ currentModulesList t → ¬ k ∈ st.modules →
      (updateIPythonModuleList t st).nameSpace k = st.nameSpace k) := by
  refine ⟨rfl, ?_, ?_, ?_⟩
  · intro hmem hnot
    have hd : k ∈ st.modules.filter fun m => ¬ m ∈ currentModulesList t :=
      List.mem_filter.mpr ⟨hmem, by simpa using hnot⟩
    simp only [updateIPythonModuleList]
    rw [if_pos hd]
  · intro hcur
    have hs : (newNamespaceLookup t k).isSome :=
      (newNamespaceLookup_isSome_iff t k).mpr hcur
    have hd : ¬ k ∈ st.modules.filter fun m => ¬ m ∈ currentModulesList t := by
      intro hk
      exact absurd hcur (by simpa using (List.mem_filter.mp hk).2)
    refine ⟨?_, hs⟩
    simp only [updateIPythonModuleList]
    rw [if_neg hd]
    cases hv : newNamespaceLookup t k with
    | none => rw [hv] at hs; simp at hs
    | some v => simp [hv]
  · intro hcur hold
    have hd : ¬ k ∈ st.modules.filter fun m => ¬ m ∈ currentModulesList t := by
      intro hk
      exact absurd (List.mem_filter.mp hk).1 hold
    have hv : newNamespaceLookup t k = none := by
      have := (newNamespaceLookup_isSome_iff t k).not.mpr hcur
      simpa [Option.not_isSome_iff_eq_none] using this
    simp only [updateIPythonModuleList]
    rw [if_neg hd, hv]

/-- Witness for the C10 theorem: with one loaded hardware module `h1` and
one loaded gui module `g1`, and a prior state tracking `old1` and `h1`, the
sync removes `old1`, rebinds `h1` to its loaded instance, keeps the
unrelated entry `np`, and tracks exactly the loaded names. -/
theorem updateIPythonModuleList_sync_witness :
    (updateIPythonModuleList
        ⟨[("h1", ⟨QueryResult.ok "idle"⟩)], [], [("g1", ⟨QueryResult.ok "running"⟩)]⟩
        ⟨["old1", "h1"], fun k =>
          if k = "old1" then some ⟨QueryResult.ok "dead"⟩
          else if k = "np" then some ⟨QueryResult.ok "numpy"⟩
          else if k = "h1" then some ⟨QueryResult.ok "stale"⟩
          else none⟩).modules = ["h1", "g1"] ∧
    (updateIPythonModuleList
        ⟨[("h1", ⟨QueryResult.ok "idle"⟩)], [], [("g1", ⟨QueryResult.ok "running"⟩)]⟩
        ⟨["old1", "h1"], fun k =>
          if k = "old1" then some ⟨QueryResult.ok "dead"⟩
          else if k = "np" then some ⟨QueryResult.ok "numpy"⟩
          else if k = "h1" then some ⟨QueryResult.ok "stale"⟩
          else none⟩).nameSpace "old1" = none ∧
    (updateIPythonModuleList
        ⟨[("h1", ⟨QueryResult.ok "idle"⟩)], [], [("g1", ⟨QueryResult.ok "running"⟩)]⟩
        ⟨["old1", "h1"], fun k =>
          if k = "old1" then some ⟨QueryResult.ok "dead"⟩
          else if k = "np" then some ⟨QueryResult.ok "numpy"⟩
          else if k = "h1" then some ⟨QueryResult.ok "stale"⟩
          else none⟩).nameSpace "h1" = some ⟨QueryResult.ok "idle"⟩ ∧
    (updateIPythonModuleList
        ⟨[("h1", ⟨QueryResult.ok "idle"⟩)], [], [("g1", ⟨QueryResult.ok "running"⟩)]⟩
        ⟨["old1", "h1"], fun k =>
          if k = "old1" then some ⟨QueryResult.ok "dead"⟩
          else if k = "np" then some ⟨QueryResult.ok "numpy"⟩
          else if k = "h1" then some ⟨QueryResult.ok "stale"⟩
          else none⟩).nameSpace "np" = some ⟨QueryResult.ok "numpy"⟩ := by
  refine ⟨?_, ?_, ?_, ?_⟩
  · exact (updateIPythonModuleList_sync
      ⟨[("h1", ⟨QueryResult.ok "idle"⟩)], [], [("g1", ⟨QueryResult.ok "running"⟩)]⟩
      ⟨["old1", "h1"], fun k =>
        if k = "old1" then some ⟨QueryResult.ok "dead"⟩
        else if k = "np" then some ⟨QueryResult.ok "numpy"⟩
        else if k = "h1" then some ⟨QueryResult.ok "stale"⟩
        else none⟩ "h1").1
  · exact (updateIPythonModuleList_sync
      ⟨[("h1", ⟨QueryResult.ok "idle"⟩)], [], [("g1", ⟨QueryResult.ok "running"⟩)]⟩
      ⟨["old1", "h1"], fun k =>
        if k = "old1" then some ⟨QueryResult.ok "dead"⟩
        else if k = "np" then some ⟨QueryResult.ok "numpy"⟩
        else if k = "h1" then some ⟨QueryResult.ok "stale"⟩
        else none⟩ "old1").2.1 (by decide) (by decide)
  · exact ((updateIPythonModuleList_sync
      ⟨[("h1", ⟨QueryResult.ok "idle"⟩)], [], [("g1", ⟨QueryResult.ok "running"⟩)]⟩
      ⟨["old1", "h1"], fun k =>
        if k = "old1" then some ⟨QueryResult.ok "dead"⟩
        else if k = "np" then some ⟨QueryResult.ok "numpy"⟩
        else if k = "h1" then some ⟨QueryResult.ok "stale"⟩
        else none⟩ "h1").2.2.1 (by decide)).1.trans (by decide)
  · exact (updateIPythonModuleList_sync
      ⟨[("h1", ⟨QueryResult.ok "idle"⟩)], [], [("g1", ⟨QueryResult.ok "running"⟩)]⟩
      ⟨["old1", "h1"], fun k =>
        if k = "old1" then some ⟨QueryResult.ok "dead"⟩
        else if k = "np" then some ⟨QueryResult.ok "numpy"⟩
        else if k = "h1" then some ⟨QueryResult.ok "stale"⟩
        else none⟩ "np").2.2.2 (by decide) (by decide) |>.trans rfl

end Qudi
